import Mathlib

/-!
Shallow embedding of the Catch Zone game engine (gameEngine.js).

The engine is a single mutable state record driven by periodic timer
callbacks.  We embed every game-logic method as a pure state transformer
on an `Engine` record.  JavaScript numbers are modelled as exact
rationals (`ℚ`); counters are `Nat`/`Int`.  Timer handles are modelled
as booleans recording whether the interval is scheduled; the per-item
300 ms grace-delay removal callbacks are modelled by the list
`pendingRemovals` of item ids together with the transformer
`fireGraceRemoval` that a scheduler may invoke later.  Callback
notifications (onScoreChange, onMissChange, onGameEnd, the terminal
alert dialog, transient feedback) are modelled as an append-only event
log.  Randomness (spawn zone, item kind, fresh id) is injected as
explicit parameters of the spawner tick.
-/

namespace CatchZone

/-- The three lanes: this.zones = ["LEFT", "CENTER", "RIGHT"]. -/
inductive Zone where
  | LEFT
  | CENTER
  | RIGHT
  deriving DecidableEq

/-- A falling item as built by spawnItem: id, zone, points, isBomb,
progress (0 to 1), dropTime (seconds) and the caught flag.  The icon
string is pure UI and omitted. -/
structure Item where
  id : Nat
  zone : Zone
  points : Nat
  isBomb : Bool
  progress : ℚ
  dropTime : ℚ
  caught : Bool
  deriving DecidableEq

/-- One entry of this.itemTypes (icon omitted as UI-only). -/
structure ItemType where
  type : String
  points : Nat
  isBomb : Bool
  deriving DecidableEq

def bombType : ItemType := { type := "bomb", points := 0, isBomb := true }

def appleType : ItemType := { type := "apple", points := 100, isBomb := false }

def pearType : ItemType := { type := "pear", points := 150, isBomb := false }

def orangeType : ItemType := { type := "orange", points := 200, isBomb := false }

/-- this.itemTypes from the constructor. -/
def itemTypes : List ItemType := [bombType, appleType, pearType, orangeType]

/-- Externally observable notifications: the registered callbacks
(onScoreChange, onMissChange, onLevelChange, onGameEnd), the terminal
alert dialog raised by gameOver (modelled structurally as reason,
score, level), and showFeedback events. -/
inductive GEvent where
  | scoreChanged : Nat → GEvent
  | missChanged : Nat → GEvent
  | levelChanged : Nat → GEvent
  | gameEnded : Nat → Nat → GEvent
  | basketMoved : Zone → GEvent
  | feedback : String → Option Zone → String → GEvent
  | alertGameOver : String → Nat → Nat → GEvent
  deriving DecidableEq

/-- this.maxMisses = 2. -/
def maxMisses : Nat := 2

/-- this.levelTimeLimit = 20 seconds per level. -/
def levelTimeLimit : Int := 20

/-- The catch line: progress >= 0.85 triggers evaluation (0.85 = 17/20). -/
def catchThreshold : ℚ := 17/20

/-- deltaTime of one 60 FPS updater tick: (1000/60)/1000 seconds = 1/60. -/
def updateDelta : ℚ := 1/60

/-- The whole mutable GameEngine instance state.  The four interval
handles are modelled as booleans (scheduled or not); pendingRemovals
holds the ids of items whose 300 ms grace-delay removal callback has
been scheduled by setTimeout and has not fired yet. -/
structure Engine where
  isGameActive : Bool
  score : Nat
  level : Nat
  missCount : Nat
  basketPosition : Zone
  items : List Item
  levelTimeRemaining : Int
  isLevelUpPause : Bool
  levelUpCountdown : Int
  isLevelEnding : Bool
  levelTimerOn : Bool
  itemSpawnTimerOn : Bool
  itemUpdateTimerOn : Bool
  levelUpCountdownTimerOn : Bool
  pendingRemovals : List Nat
  events : List GEvent
  deriving DecidableEq

/-- Append one notification to the event log (firing a callback). -/
def emit (s : Engine) (e : GEvent) : Engine :=
  { s with events := s.events ++ [e] }

/-- clearTimers(): clearInterval on the four interval handles.  Note it
does NOT cancel the per-item setTimeout grace-delay callbacks. -/
def clearTimers (s : Engine) : Engine :=
  { s with levelTimerOn := false, itemSpawnTimerOn := false,
           itemUpdateTimerOn := false, levelUpCountdownTimerOn := false }

/-- stop(): set isGameActive = false, clearTimers, then fire
onGameEnd(score, level) — unconditionally, even if already inactive. -/
def stop (s : Engine) : Engine :=
  let s1 := clearTimers { s with isGameActive := false }
  emit s1 (GEvent.gameEnded s1.score s1.level)

/-- The gameOver reason string for catching a bomb. -/
def bombReason : String := "폭탄을 받았습니다!"

/-- The gameOver reason string for reaching maxMisses (= 2) misses. -/
def missedReason : String := "과일을 2번 놓쳤습니다!"

/-- gameOver(reason): stop() then the terminal alert showing the reason
together with the final score and level. -/
def gameOver (s : Engine) (reason : String) : Engine :=
  let s1 := stop s
  emit s1 (GEvent.alertGameOver reason s1.score s1.level)

/-- missItem(): increment missCount, fire onMissChange; warn at the
first miss, gameOver when missCount >= maxMisses. -/
def missItem (s : Engine) : Engine :=
  let s1 := { s with missCount := s.missCount + 1 }
  let s2 := emit s1 (GEvent.missChanged s1.missCount)
  if s2.missCount = 1 then
    emit s2 (GEvent.feedback "경고!" none "warning")
  else if maxMisses ≤ s2.missCount then
    gameOver s2 missedReason
  else s2

/-- catchItem(item): a bomb means immediate gameOver; a fruit adds its
points to the score, fires onScoreChange and a success feedback. -/
def catchItem (s : Engine) (it : Item) : Engine :=
  if it.isBomb then gameOver s bombReason
  else
    let s1 := { s with score := s.score + it.points }
    let s2 := emit s1 (GEvent.scoreChanged s1.score)
    emit s2 (GEvent.feedback ("+" ++ toString it.points ++ "점!") (some it.zone) "success")

/-- handleItemReachedBasket(item): same zone as the basket means catch;
otherwise only non-bomb items count as a miss. -/
def handleItemReachedBasket (s : Engine) (it : Item) : Engine :=
  if it.zone = s.basketPosition then catchItem s it
  else if it.isBomb = false then missItem s
  else s

/-- The per-item body of the updater tick: skip caught items; advance
progress by deltaTime / dropTime; on reaching the catch line set
caught = true, clamp progress to 0.85, evaluate the basket outcome and
schedule the 300 ms grace-delay removal (setTimeout). -/
def updateItem (s : Engine) (it : Item) : Engine × Item :=
  if it.caught then (s, it)
  else
    let p := it.progress + updateDelta / it.dropTime
    if catchThreshold ≤ p then
      let it1 : Item := { it with caught := true, progress := catchThreshold }
      let s1 := handleItemReachedBasket s it1
      ({ s1 with pendingRemovals := s1.pendingRemovals ++ [it1.id] }, it1)
    else (s, { it with progress := p })

/-- this.items.forEach(...) of the updater tick: process the items in
order, threading the engine state (the loop is never interrupted, even
when gameOver fires in the middle of the batch). -/
def runItems (s : Engine) : List Item → Engine × List Item
  | [] => (s, [])
  | it :: rest =>
    let r1 := updateItem s it
    let r2 := runItems r1.1 rest
    (r2.1, r1.2 :: r2.2)

/-- One tick of startItemUpdater's 60 FPS interval: return immediately
when the engine is inactive or in the level-up pause, otherwise update
every item. -/
def itemUpdaterTick (s : Engine) : Engine :=
  if !s.isGameActive || s.isLevelUpPause then s
  else
    let r := runItems s s.items
    { r.1 with items := r.2 }

/-- Math.max on two rationals (returns the larger argument). -/
def ratMax (a b : ℚ) : ℚ := if a ≤ b then b else a

/-- getDropTime() as a function of the level field it reads:
max(2.0 - (level - 1) * 0.2, 0.6). -/
def dropTimeOfLevel (level : Nat) : ℚ :=
  ratMax (2 - ((level : ℚ) - 1) * (1/5)) (3/5)

/-- The getDropTime() method: reads only this.level. -/
def getDropTime (s : Engine) : ℚ := dropTimeOfLevel s.level

/-- The item literal built by spawnItem (id fresh, progress 0,
dropTime from the current level, caught false). -/
def mkItem (newId : Nat) (zone : Zone) (t : ItemType) (level : Nat) : Item :=
  { id := newId, zone := zone, points := t.points, isBomb := t.isBomb,
    progress := 0, dropTime := dropTimeOfLevel level, caught := false }

/-- spawnItem(): push a fresh item onto this.items.  The random draws
(zone, item type) and the fresh id are injected as parameters. -/
def spawnItem (s : Engine) (newId : Nat) (zone : Zone) (t : ItemType) : Engine :=
  { s with items := s.items ++ [mkItem newId zone t s.level] }

/-- One tick of startItemSpawner's interval: spawn only while the game
is active and not in the level-ending phase. -/
def itemSpawnerTick (s : Engine) (newId : Nat) (zone : Zone) (t : ItemType) : Engine :=
  if s.isGameActive && !s.isLevelEnding then spawnItem s newId zone t else s

/-- pauseForLevelUp(): enter the level-up pause, reset the 3-second
countdown, stop the level timer and the spawner, start the countdown
timer (startLevelUpCountdown). -/
def pauseForLevelUp (s : Engine) : Engine :=
  { s with isLevelUpPause := true, levelUpCountdown := 3,
           levelTimerOn := false, itemSpawnTimerOn := false,
           levelUpCountdownTimerOn := true }

/-- nextLevel(): increment the level, reset the level countdown to the
20 s limit, clear the level-ending flag and enter the level-up pause. -/
def nextLevel (s : Engine) : Engine :=
  pauseForLevelUp { s with level := s.level + 1,
                           levelTimeRemaining := levelTimeLimit,
                           isLevelEnding := false }

/-- startLevelEnding(): set the level-ending flag, stop the level timer
and the spawner; if no items are airborne, level up immediately. -/
def startLevelEnding (s : Engine) : Engine :=
  let s1 := { s with isLevelEnding := true, levelTimerOn := false,
                     itemSpawnTimerOn := false }
  if s1.items.length == 0 then nextLevel s1 else s1

/-- One tick of startLevelTimer's 1 Hz interval: count down, and start
the level ending when the remaining time reaches zero. -/
def levelTimerTick (s : Engine) : Engine :=
  let s1 := { s with levelTimeRemaining := s.levelTimeRemaining - 1 }
  if s1.levelTimeRemaining ≤ 0 then startLevelEnding s1 else s1

/-- Remove the first item with the given id (this.items.indexOf(item)
followed by splice(index, 1); ids are unique, and indexOf compares by
object identity which the id models). -/
def removeById (itemId : Nat) : List Item → List Item
  | [] => []
  | it :: rest => if it.id == itemId then rest else it :: removeById itemId rest

/-- Whether an item with the given id is present (indexOf > -1). -/
def containsId (itemId : Nat) (l : List Item) : Bool :=
  l.any (fun it => it.id == itemId)

/-- Firing the 300 ms grace-delay setTimeout callback scheduled for an
item: if the item is still in this.items, splice it out, and if the
level is ending and the collection became empty, call nextLevel().
Note the callback checks neither isGameActive nor whether the run was
restarted. -/
def fireGraceRemoval (s : Engine) (itemId : Nat) : Engine :=
  let s0 := { s with pendingRemovals := s.pendingRemovals.erase itemId }
  if containsId itemId s0.items then
    let s1 := { s0 with items := removeById itemId s0.items }
    if s1.isLevelEnding && s1.items.length == 0 then nextLevel s1 else s1
  else s0

/-- start(): reset score, level, missCount, basket to CENTER, items to
a fresh empty collection, the level countdown, and schedule the three
periodic processes.  (It does not reset isLevelEnding, isLevelUpPause
or the pending grace-delay callbacks.) -/
def start (s : Engine) : Engine :=
  { s with isGameActive := true, score := 0, level := 1, missCount := 0,
           basketPosition := Zone.CENTER, items := [],
           levelTimeRemaining := levelTimeLimit,
           levelTimerOn := true, itemSpawnTimerOn := true,
           itemUpdateTimerOn := true }

/-- A freshly constructed engine (the constructor's field values). -/
def engine0 : Engine :=
  { isGameActive := false, score := 0, level := 1, missCount := 0,
    basketPosition := Zone.CENTER, items := [],
    levelTimeRemaining := levelTimeLimit,
    isLevelUpPause := false, levelUpCountdown := 3, isLevelEnding := false,
    levelTimerOn := false, itemSpawnTimerOn := false,
    itemUpdateTimerOn := false, levelUpCountdownTimerOn := false,
    pendingRemovals := [], events := [] }

/-- Modelled from the spec: the difficulty curve written exactly as the
spec states it, dropTime(L) = max(2.0 - 0.2 * (L - 1), 0.6), for
comparison with the code-side dropTimeOfLevel. -/
def dropTimeSpecFormula (L : Nat) : ℚ :=
  ratMax (2 - (1/5) * ((L : ℚ) - 1)) (3/5)

/-- Recognizer for game-ended notifications in the event log. -/
def isGameEndedEvent : GEvent → Bool
  | GEvent.gameEnded _ _ => true
  | _ => false

/-- A wrong-zone fruit (apple) one updater tick away from the catch
line: progress 0.84, dropTime 1 s, zone LEFT while the basket is at
its reset position CENTER. -/
def fruitLeft (n : Nat) : Item :=
  { id := n, zone := Zone.LEFT, points := 100, isBomb := false,
    progress := 21/25, dropTime := 1, caught := false }

/-- A running engine with three wrong-zone fruits that all cross the
catch line in the same updater tick. -/
def tripleMissState : Engine :=
  { start engine0 with items := [fruitLeft 1, fruitLeft 2, fruitLeft 3] }

/-- An already-caught wrong-zone fruit whose 300 ms grace-delay
removal callback is still pending. -/
def caughtLeftItem : Item :=
  { id := 9, zone := Zone.LEFT, points := 100, isBomb := false,
    progress := 17/20, dropTime := 1, caught := true }

/-- A run that reached game-over (second miss) while the level was
ending, with the caught item still awaiting its grace-delay removal:
the engine is stopped but the setTimeout callback for item 9 is still
scheduled. -/
def endingStoppedState : Engine :=
  gameOver
    { start engine0 with
      isLevelEnding := true,
      items := [caughtLeftItem],
      pendingRemovals := [9],
      missCount := 1 }
    missedReason

/-- A bomb in the basket's zone, one tick from the catch line. -/
def bombCenterItem : Item :=
  { id := 21, zone := Zone.CENTER, points := 0, isBomb := true,
    progress := 21/25, dropTime := 1, caught := false }

/-- A running engine about to catch a bomb. -/
def bombCaughtState : Engine :=
  { start engine0 with items := [bombCenterItem] }

/-- A running engine at one miss, about to take its second miss. -/
def missLimitState : Engine :=
  { start engine0 with missCount := 1, items := [fruitLeft 22] }

/-- A running engine with two airborne items, for level-ending tests. -/
def endingWaitState : Engine :=
  { start engine0 with items := [fruitLeft 41, fruitLeft 42] }

/-- A level-ending engine whose single remaining item has been caught
and awaits grace-delay removal. -/
def endingOneCaught : Engine :=
  { start engine0 with isLevelEnding := true, items := [caughtLeftItem] }

/-- An inactive engine carrying a concrete mid-run state. -/
def inactiveState : Engine :=
  { engine0 with score := 350, level := 4, missCount := 1 }

/-- A bomb outside the basket's zone, at the catch line. -/
def bombLeftItem : Item :=
  { id := 61, zone := Zone.LEFT, points := 0, isBomb := true,
    progress := 17/20, dropTime := 1, caught := true }

/-- An apple in the basket's zone, at the catch line. -/
def appleCenterItem : Item :=
  { id := 62, zone := Zone.CENTER, points := 100, isBomb := false,
    progress := 17/20, dropTime := 1, caught := true }

/-- An uncaught fruit at mid-fall: one tick keeps it below the catch
line. -/
def midFruit : Item :=
  { id := 63, zone := Zone.RIGHT, points := 150, isBomb := false,
    progress := 1/2, dropTime := 1, caught := false }

/- ------------------------------------------------------------------
Helper lemmas (shared, not tied to any single claim).
------------------------------------------------------------------ -/

theorem stop_level (s : Engine) : (stop s).level = s.level := rfl

theorem stop_score (s : Engine) : (stop s).score = s.score := rfl

theorem stop_missCount (s : Engine) : (stop s).missCount = s.missCount := rfl

theorem gameOver_level (s : Engine) (r : String) : (gameOver s r).level = s.level := rfl

theorem gameOver_score (s : Engine) (r : String) : (gameOver s r).score = s.score := rfl

theorem gameOver_missCount (s : Engine) (r : String) :
    (gameOver s r).missCount = s.missCount := rfl

theorem missItem_level (s : Engine) : (missItem s).level = s.level := by
  simp only [missItem, emit, gameOver, stop, clearTimers]
  split_ifs <;> rfl

theorem missItem_score (s : Engine) : (missItem s).score = s.score := by
  simp only [missItem, emit, gameOver, stop, clearTimers]
  split_ifs <;> rfl

theorem missItem_missCount (s : Engine) : (missItem s).missCount = s.missCount + 1 := by
  simp only [missItem, emit, gameOver, stop, clearTimers]
  split_ifs <;> rfl

theorem catchItem_level (s : Engine) (it : Item) : (catchItem s it).level = s.level := by
  simp only [catchItem, emit, gameOver, stop, clearTimers]
  split_ifs <;> rfl

theorem handleItemReachedBasket_level (s : Engine) (it : Item) :
    (handleItemReachedBasket s it).level = s.level := by
  simp only [handleItemReachedBasket]
  split_ifs with h1 h2
  · exact catchItem_level s it
  · exact missItem_level s
  · rfl

theorem updateItem_level (s : Engine) (it : Item) :
    ((updateItem s it).1).level = s.level := by
  simp only [updateItem]
  split_ifs with h1 h2
  · rfl
  · exact handleItemReachedBasket_level s _
  · rfl

theorem runItems_level (l : List Item) : ∀ s : Engine, ((runItems s l).1).level = s.level := by
  induction l with
  | nil => intro s; rfl
  | cons it rest ih =>
    intro s
    simp only [runItems]
    rw [ih]
    exact updateItem_level s it

theorem nextLevel_items (s : Engine) : (nextLevel s).items = s.items := rfl

/- ------------------------------------------------------------------
Claim theorems.  Concrete evaluations need the rational arithmetic of
Batteries to be kernel-reducible, so the sealed operations are made
semireducible locally.
------------------------------------------------------------------ -/

section ConcreteEvaluations

attribute [local semireducible] Rat.add Rat.mul Rat.inv Rat.sub

/-- C1: the claim states that missCount never exceeds maxMisses (= 2)
and that reaching maxMisses triggers game-over exactly once, even when
several items cross the catch line in the same updater tick.  The code
violates this: the per-item loop of the updater never re-checks
isGameActive, so one tick over three wrong-zone fruits drives
missCount to 3 (> maxMisses = 2) and emits the game-over transition
(game-ended notification) twice. -/
theorem c1_missCount_bound_violated :
    (itemUpdaterTick tripleMissState).missCount = 3 ∧
    ((itemUpdaterTick tripleMissState).events.filter isGameEndedEvent).length = 2 ∧
    maxMisses = 2 := by decide

/-- C2: after the game-over transition (isGameActive = false), a
spawner tick and a physics/collision updater tick are both identities:
they mutate neither score, missCount, level, nor the item collection,
and spawn nothing; and gameOver does put the engine into the inactive
state with all interval timers cancelled. -/
theorem c2_no_mutation_after_gameover (s : Engine) (h : s.isGameActive = false)
    (newId : Nat) (zone : Zone) (t : ItemType) (reason : String) :
    itemSpawnerTick s newId zone t = s ∧
    itemUpdaterTick s = s ∧
    (gameOver s reason).isGameActive = false ∧
    (gameOver s reason).levelTimerOn = false ∧
    (gameOver s reason).itemSpawnTimerOn = false ∧
    (gameOver s reason).itemUpdateTimerOn = false := by
  refine ⟨?_, ?_, rfl, rfl, rfl, rfl⟩
  · simp [itemSpawnerTick, h]
  · simp [itemUpdaterTick, h]

/-- C2 witness: the spawner and updater ticks leave a concrete
inactive state untouched, and gameOver yields an inactive state. -/
theorem c2_no_mutation_after_gameover_witness :
    itemSpawnerTick inactiveState 7 Zone.LEFT appleType = inactiveState ∧
    itemUpdaterTick inactiveState = inactiveState ∧
    (gameOver inactiveState bombReason).isGameActive = false ∧
    (gameOver inactiveState bombReason).levelTimerOn = false ∧
    (gameOver inactiveState bombReason).itemSpawnTimerOn = false ∧
    (gameOver inactiveState bombReason).itemUpdateTimerOn = false :=
  c2_no_mutation_after_gameover inactiveState rfl 7 Zone.LEFT appleType bombReason

/-- C3: the claim states that no dangling grace-delay callback can
mutate stale state or trigger nextLevel on an inactive engine.  The
code violates this (the spec design notes flag it as a bug): after a
game-over that occurred while the level was ending, the still-pending
300 ms removal callback fires on the stopped engine, removes the item,
and calls nextLevel — incrementing level and even scheduling the
level-up countdown timer on an inactive engine. -/
theorem c3_dangling_callback_mutates_stopped_engine :
    endingStoppedState.isGameActive = false ∧
    (fireGraceRemoval endingStoppedState 9).level = endingStoppedState.level + 1 ∧
    (fireGraceRemoval endingStoppedState 9).isLevelUpPause = true ∧
    (fireGraceRemoval endingStoppedState 9).levelUpCountdownTimerOn = true ∧
    (fireGraceRemoval endingStoppedState 9).isGameActive = false := by decide

/-- Helper: the grace-delay removal callback can only change the level
in the branch that empties the item collection. -/
theorem fireGraceRemoval_level_of_ne_nil (s : Engine) (i : Nat)
    (hne : (fireGraceRemoval s i).items ≠ []) :
    (fireGraceRemoval s i).level = s.level := by
  simp only [fireGraceRemoval] at hne ⊢
  split_ifs at hne ⊢ with h1 h2
  · exfalso
    apply hne
    rw [nextLevel_items]
    have h2' := (Bool.and_eq_true _ _).mp h2
    simpa [List.length_eq_zero] using h2'.2
  · rfl
  · rfl

/-- Helper: the updater tick never changes the level. -/
theorem itemUpdaterTick_level (s : Engine) : (itemUpdaterTick s).level = s.level := by
  simp only [itemUpdaterTick]
  split_ifs with h
  · rfl
  · exact runItems_level s.items s

/-- C4: when the level countdown reaches zero (startLevelEnding) with
items still airborne, the level does not advance; with an empty
collection it advances immediately by exactly 1 with the countdown
reset to 20; while waiting, neither an updater tick nor a grace-delay
removal that leaves the collection nonempty changes the level; and the
removal of the last item during the level-ending phase advances the
level by exactly 1 and resets the countdown to 20. -/
theorem c4_level_waits_for_items (s : Engine) (it : Item) (i : Nat) :
    (s.items ≠ [] →
       (startLevelEnding s).level = s.level ∧
       (startLevelEnding s).isLevelEnding = true) ∧
    (s.items = [] →
       (startLevelEnding s).level = s.level + 1 ∧
       (startLevelEnding s).levelTimeRemaining = 20) ∧
    (s.isLevelEnding = true → s.items = [it] →
       (fireGraceRemoval s it.id).level = s.level + 1 ∧
       (fireGraceRemoval s it.id).levelTimeRemaining = 20) ∧
    ((fireGraceRemoval s i).items ≠ [] → (fireGraceRemoval s i).level = s.level) ∧
    (itemUpdaterTick s).level = s.level := by
  refine ⟨fun hne => ?_, fun he => ?_, fun hend hone => ?_,
         fun h => fireGraceRemoval_level_of_ne_nil s i h, itemUpdaterTick_level s⟩
  · have hlen : (s.items.length == 0) = false := by
      simpa [List.length_eq_zero] using hne
    simp [startLevelEnding, hlen]
  · simp [startLevelEnding, he, nextLevel, pauseForLevelUp, levelTimeLimit]
  · simp [fireGraceRemoval, hone, containsId, removeById, hend,
          nextLevel, pauseForLevelUp, levelTimeLimit]

/-- C4 witness: with two airborne items the level stays put when the
countdown expires; with an empty collection it advances at once to 2
with the timer reset; removing the last caught item during level
ending advances the level; removing one of two items does not; an
updater tick does not. -/
theorem c4_level_waits_for_items_witness :
    ((startLevelEnding endingWaitState).level = endingWaitState.level ∧
     (startLevelEnding endingWaitState).isLevelEnding = true) ∧
    ((startLevelEnding (start engine0)).level = (start engine0).level + 1 ∧
     (startLevelEnding (start engine0)).levelTimeRemaining = 20) ∧
    ((fireGraceRemoval endingOneCaught caughtLeftItem.id).level = endingOneCaught.level + 1 ∧
     (fireGraceRemoval endingOneCaught caughtLeftItem.id).levelTimeRemaining = 20) ∧
    (fireGraceRemoval endingWaitState 41).level = endingWaitState.level ∧
    (itemUpdaterTick endingWaitState).level = endingWaitState.level :=
  ⟨(c4_level_waits_for_items endingWaitState caughtLeftItem 41).1 (by decide),
   (c4_level_waits_for_items (start engine0) caughtLeftItem 0).2.1 rfl,
   (c4_level_waits_for_items endingOneCaught caughtLeftItem 0).2.2.1 rfl rfl,
   (c4_level_waits_for_items endingWaitState caughtLeftItem 41).2.2.2.1 (by decide),
   (c4_level_waits_for_items endingWaitState caughtLeftItem 41).2.2.2.2⟩

/-- C5 counterexample: the game-ended notification does not carry a
reason tag distinguishing the two game-over causes — a bomb-caught run
and a miss-limit run emit byte-for-byte identical game-ended
notifications — and in a batched tick with three simultaneous misses
the notification is emitted twice, not exactly once. -/
theorem c5_counterexample :
    (itemUpdaterTick bombCaughtState).events.filter isGameEndedEvent =
      [GEvent.gameEnded 0 1] ∧
    (itemUpdaterTick missLimitState).events.filter isGameEndedEvent =
      [GEvent.gameEnded 0 1] ∧
    ((itemUpdaterTick tripleMissState).events.filter isGameEndedEvent).length = 2 := by
  decide

/-- C5 (amended): every stop() call emits exactly one game-ended
notification carrying the final score and final level (but no reason);
the human-readable reason distinguishing the hazard-caught cause from
the missed-too-many cause is carried by the separate terminal alert
that only the game-over paths produce, with two distinct reason
strings; an explicit stop emits no reason at all. -/
theorem c5_game_ended_emission (s : Engine) :
    (stop s).events = s.events ++ [GEvent.gameEnded s.score s.level] ∧
    (gameOver s bombReason).events =
      s.events ++ [GEvent.gameEnded s.score s.level,
                   GEvent.alertGameOver bombReason s.score s.level] ∧
    (gameOver s missedReason).events =
      s.events ++ [GEvent.gameEnded s.score s.level,
                   GEvent.alertGameOver missedReason s.score s.level] ∧
    bombReason ≠ missedReason := by
  refine ⟨rfl, ?_, ?_, by decide⟩
  · show (s.events ++ [GEvent.gameEnded s.score s.level]) ++
        [GEvent.alertGameOver bombReason s.score s.level] = _
    rw [List.append_assoc]; rfl
  · show (s.events ++ [GEvent.gameEnded s.score s.level]) ++
        [GEvent.alertGameOver missedReason s.score s.level] = _
    rw [List.append_assoc]; rfl

/-- C6: a bomb evaluated at the catch line in the basket's zone ends
the game immediately (for any current missCount) without changing the
score or the missCount; a bomb in a different zone changes neither
score nor missCount. -/
theorem c6_bomb_evaluation (s : Engine) (it : Item) (hb : it.isBomb = true) :
    (it.zone = s.basketPosition →
       (handleItemReachedBasket s it).isGameActive = false ∧
       (handleItemReachedBasket s it).score = s.score ∧
       (handleItemReachedBasket s it).missCount = s.missCount) ∧
    (it.zone ≠ s.basketPosition →
       (handleItemReachedBasket s it).score = s.score ∧
       (handleItemReachedBasket s it).missCount = s.missCount) := by
  refine ⟨fun hz => ?_, fun hz => ?_⟩
  · simp [handleItemReachedBasket, hz, catchItem, hb, gameOver, stop, clearTimers, emit]
  · simp [handleItemReachedBasket, hz, hb]

/-- C6 witness: a bomb at the CENTER basket ends a fresh run with
score and missCount untouched; a LEFT-zone bomb has no effect on
either. -/
theorem c6_bomb_evaluation_witness :
    ((handleItemReachedBasket (start engine0) bombCenterItem).isGameActive = false ∧
     (handleItemReachedBasket (start engine0) bombCenterItem).score = (start engine0).score ∧
     (handleItemReachedBasket (start engine0) bombCenterItem).missCount =
       (start engine0).missCount) ∧
    ((handleItemReachedBasket (start engine0) bombLeftItem).score = (start engine0).score ∧
     (handleItemReachedBasket (start engine0) bombLeftItem).missCount =
       (start engine0).missCount) :=
  ⟨(c6_bomb_evaluation (start engine0) bombCenterItem rfl).1 rfl,
   (c6_bomb_evaluation (start engine0) bombLeftItem rfl).2 (by decide)⟩

/-- C7: a fruit evaluated at the catch line in the basket's zone adds
exactly its point value to the score and leaves missCount unchanged; a
fruit in a different zone increments missCount by exactly 1 and leaves
the score unchanged; the three fruit kinds carry 100, 150 and 200
points. -/
theorem c7_fruit_evaluation (s : Engine) (it : Item) (hf : it.isBomb = false) :
    (it.zone = s.basketPosition →
       (handleItemReachedBasket s it).score = s.score + it.points ∧
       (handleItemReachedBasket s it).missCount = s.missCount) ∧
    (it.zone ≠ s.basketPosition →
       (handleItemReachedBasket s it).missCount = s.missCount + 1 ∧
       (handleItemReachedBasket s it).score = s.score) ∧
    appleType.points = 100 ∧ pearType.points = 150 ∧ orangeType.points = 200 := by
  refine ⟨fun hz => ?_, fun hz => ?_, rfl, rfl, rfl⟩
  · simp [handleItemReachedBasket, hz, catchItem, hf, emit]
  · have h1 : handleItemReachedBasket s it = missItem s := by
      simp [handleItemReachedBasket, hz, hf]
    rw [h1]
    exact ⟨missItem_missCount s, missItem_score s⟩

/-- C7 witness: catching a CENTER apple on a fresh run adds exactly
100 points without touching missCount; a LEFT apple missed from the
CENTER basket adds exactly one miss without touching the score. -/
theorem c7_fruit_evaluation_witness :
    ((handleItemReachedBasket (start engine0) appleCenterItem).score =
       (start engine0).score + appleCenterItem.points ∧
     (handleItemReachedBasket (start engine0) appleCenterItem).missCount =
       (start engine0).missCount) ∧
    ((handleItemReachedBasket (start engine0) (fruitLeft 64)).missCount =
       (start engine0).missCount + 1 ∧
     (handleItemReachedBasket (start engine0) (fruitLeft 64)).score = (start engine0).score) ∧
    appleType.points = 100 ∧ pearType.points = 150 ∧ orangeType.points = 200 :=
  ⟨(c7_fruit_evaluation (start engine0) appleCenterItem rfl).1 rfl,
   (c7_fruit_evaluation (start engine0) (fruitLeft 64) rfl).2.1 (by decide),
   rfl, rfl, rfl⟩

/-- C8: the updater never touches a caught item (so progress is frozen
from the moment of catching on); for an uncaught item whose advanced
progress stays below the 0.85 catch line the item remains uncaught and
its progress strictly increases by exactly one tick's increment; on
the first tick in which the advanced progress reaches or crosses 0.85
the item becomes caught and its progress is clamped to exactly 0.85. -/
theorem c8_progress_catch_dynamics (s : Engine) (it : Item) (hd : 0 < it.dropTime) :
    (it.caught = true → updateItem s it = (s, it)) ∧
    (it.caught = false →
      (it.progress + updateDelta / it.dropTime < catchThreshold →
        (updateItem s it).2.caught = false ∧
        (updateItem s it).2.progress = it.progress + updateDelta / it.dropTime ∧
        it.progress < (updateItem s it).2.progress) ∧
      (catchThreshold ≤ it.progress + updateDelta / it.dropTime →
        (updateItem s it).2.caught = true ∧
        (updateItem s it).2.progress = catchThreshold)) := by
  refine ⟨fun hc => ?_, fun hc => ⟨fun hlt => ?_, fun hge => ?_⟩⟩
  · simp [updateItem, hc]
  · have hnot : ¬ catchThreshold ≤ it.progress + updateDelta / it.dropTime := not_le.mpr hlt
    refine ⟨?_, ?_, ?_⟩
    · simp [updateItem, hc, hnot]
    · simp [updateItem, hc, hnot]
    · have hpos : 0 < updateDelta / it.dropTime :=
        div_pos (by norm_num [updateDelta]) hd
      have : it.progress < it.progress + updateDelta / it.dropTime :=
        lt_add_of_pos_right _ hpos
      simpa [updateItem, hc, hnot] using this
  · constructor
    · simp [updateItem, hc, hge]
    · simp [updateItem, hc, hge]

/-- C8 witness: a caught item is untouched by the updater; an uncaught
mid-fall fruit advances strictly below the catch line; a fruit one
tick from the line becomes caught with progress exactly 0.85. -/
theorem c8_progress_catch_dynamics_witness :
    (updateItem (start engine0) caughtLeftItem = (start engine0, caughtLeftItem)) ∧
    ((updateItem (start engine0) midFruit).2.caught = false ∧
     (updateItem (start engine0) midFruit).2.progress =
       midFruit.progress + updateDelta / midFruit.dropTime ∧
     midFruit.progress < (updateItem (start engine0) midFruit).2.progress) ∧
    ((updateItem (start engine0) (fruitLeft 65)).2.caught = true ∧
     (updateItem (start engine0) (fruitLeft 65)).2.progress = catchThreshold) :=
  ⟨(c8_progress_catch_dynamics (start engine0) caughtLeftItem (by decide)).1 rfl,
   ((c8_progress_catch_dynamics (start engine0) midFruit (by decide)).2 rfl).1 (by decide),
   ((c8_progress_catch_dynamics (start engine0) (fruitLeft 65) (by decide)).2 rfl).2 (by decide)⟩

/-- C9: the difficulty curve computed by getDropTime depends on
nothing but the level and equals the spec formula
dropTime(L) = max(2.0 - 0.2 * (L - 1), 0.6) for every level L >= 1,
with dropTime(1) = 2, dropTime(7) = 0.8 and dropTime(20) = 0.6. -/
theorem c9_drop_time_formula (L : Nat) (_hL : 1 ≤ L) (s : Engine) (hs : s.level = L) :
    getDropTime s = dropTimeSpecFormula L ∧
    getDropTime s = dropTimeOfLevel L ∧
    dropTimeOfLevel 1 = 2 ∧
    dropTimeOfLevel 7 = 4/5 ∧
    dropTimeOfLevel 20 = 3/5 := by
  refine ⟨?_, ?_, by decide, by decide, by decide⟩
  · simp only [getDropTime, hs, dropTimeOfLevel, dropTimeSpecFormula, mul_comm]
  · simp only [getDropTime, hs]

/-- C9 witness: the formula at level 7 on a concrete engine state. -/
theorem c9_drop_time_formula_witness :
    getDropTime { engine0 with level := 7 } = dropTimeSpecFormula 7 ∧
    getDropTime { engine0 with level := 7 } = dropTimeOfLevel 7 ∧
    dropTimeOfLevel 1 = 2 ∧
    dropTimeOfLevel 7 = 4/5 ∧
    dropTimeOfLevel 20 = 3/5 :=
  c9_drop_time_formula 7 (by decide) { engine0 with level := 7 } rfl

/-- C10: stop() is not a silent no-op on an inactive engine: even when
isGameActive is already false, calling stop leaves the engine inactive
and fires the game-ended callback again with the current score and
level. -/
theorem c10_duplicate_stop_emits (s : Engine) (_h : s.isGameActive = false) :
    (stop s).isGameActive = false ∧
    (stop s).events = s.events ++ [GEvent.gameEnded s.score s.level] :=
  ⟨rfl, rfl⟩

/-- C10 witness: a duplicate stop on a concrete inactive mid-run state
emits a second game-ended notification with the current score and
level. -/
theorem c10_duplicate_stop_emits_witness :
    (stop inactiveState).isGameActive = false ∧
    (stop inactiveState).events =
      inactiveState.events ++ [GEvent.gameEnded inactiveState.score inactiveState.level] :=
  c10_duplicate_stop_emits inactiveState rfl

end ConcreteEvaluations

end CatchZone
